import Mathlib

/-!
# Jtux clock bridge (`jtux_clock.c`)

A shallow embedding of the four JNI entry points of
`third_party/jtux/native/so/jtux_clock.c`:
`Java_jtux_UClock_alarm`, `Java_jtux_UClock_nanosleep`,
`Java_jtux_UClock_sleep` and `Java_jtux_UClock_usleep`.

The managed runtime is an explicit state (`JNIEnv`): a heap of time-value
objects, the pending exception, and a log of every boundary event (field
accesses, system calls, throws) in program order.  The operating system and
the outcome of each reflective field access are parameters (`Host`); the
widths of the native integer types are parameters (`Platform`).
-/

namespace Jtux

/-! ## Data model -/

/-- A managed object reference (JNI `jobject`), an address in the managed heap.
The null reference is address 0, as in C. -/
abbrev jobject := Nat

/-- The null reference. -/
def NULL : jobject := 0

/-- The two fields of the managed class `jtux.UProcess$s_timespec`, which the
bridge names by the strings "tv_sec" and "tv_nsec". -/
inductive Field
  | tv_sec
  | tv_nsec
deriving DecidableEq

/-- The native `struct timespec`. -/
structure timespec where
  tv_sec : Int
  tv_nsec : Int
deriving DecidableEq

/-- What can be pending in the managed runtime when a bridge call returns. -/
inductive Throwable
  /-- the error a failed field access leaves pending -/
  | FieldAccessError
  /-- the error the bridge raises for a failed system call -/
  | SystemCallError
deriving DecidableEq

/-- Boundary events, logged in program order. -/
inductive Event
  /-- a call of `field_jtoc_long` for field `f` of `obj` -/
  | jtoc (f : Field) (obj : jobject)
  /-- a call of `field_ctoj_long` for field `f` of `obj` with value `v` -/
  | ctoj (f : Field) (obj : jobject) (v : Int)
  /-- a call of `alarm(secs)` -/
  | sys_alarm (secs : Nat)
  /-- a call of `sleep(secs)` -/
  | sys_sleep (secs : Nat)
  /-- a call of `usleep(usecs)` -/
  | sys_usleep (usecs : Nat)
  /-- a call of `nanosleep(&req, rem)`; `remBuf` tells whether `rem` was a
  buffer (`true`) or the null pointer (`false`) -/
  | sys_nanosleep (req : timespec) (remBuf : Bool)
  /-- the bridge raised `SystemCallError` -/
  | throwSystemCallError
deriving DecidableEq

/-- Widths, in bits, of the native integer types the bridge converts through:
`long` (the local `sec`, and `tv_nsec`) and `time_t` (`tv_sec`).  Their
declarations come from the platform headers. -/
structure Platform where
  longBits : Nat
  timeBits : Nat

/-- Everything outside the bridge: whether each reflective field access
succeeds, and what each system call returns.  `nanosleep req remBuf` gives the
return value and the content of the remainder buffer after the call (read by
the bridge only when a buffer was passed). -/
structure Host where
  jtoc_ok : Field → jobject → Bool
  ctoj_ok : Field → jobject → Bool
  alarm : Nat → Nat
  sleep : Nat → Nat
  usleep : Nat → Int
  nanosleep : timespec → Bool → Int × timespec

/-- State of the managed runtime as seen through `JNIEnv *env`. -/
structure JNIEnv where
  heap : jobject → Field → Int
  exc : Option Throwable
  log : List Event

/-- The events logged between state `env0` and a later state `env1`. -/
def trace (env0 env1 : JNIEnv) : List Event :=
  env1.log.drop env0.log.length

/-- Recognises an attempted field write. -/
def Event.isWrite : Event → Bool
  | Event.ctoj _ _ _ => true
  | _ => false

/-- Recognises a call of the underlying `nanosleep`. -/
def Event.isNanosleep : Event → Bool
  | Event.sys_nanosleep _ _ => true
  | _ => false

/-! ## Machine integers -/

/-- Conversion of an integer to a signed twos-complement type of `bits` bits
(for `bits = 0` the type is taken to have one bit). -/
def wrapSigned (bits : Nat) (x : Int) : Int :=
  (x + 2 ^ (bits - 1)) % (2 * 2 ^ (bits - 1)) - 2 ^ (bits - 1)

/-- Conversion of an integer to an unsigned type of `bits` bits. -/
def toUnsigned (bits : Nat) (x : Int) : Nat :=
  (x % 2 ^ bits).toNat

/-- The value `x` is representable in a signed type of `bits` bits. -/
def inRange (bits : Nat) (x : Int) : Prop :=
  -(2 ^ (bits - 1)) ≤ x ∧ x < 2 ^ (bits - 1)

instance (bits : Nat) (x : Int) : Decidable (inRange bits x) := by
  unfold inRange
  infer_instance

/-! ## Collaborators that are not in the translation unit -/

/-- Modelled from the spec: `field_jtoc_long` is defined in `jtux_util.c`,
which is not among the sources.  It looks up field `f` of `obj` and stores its
value through a `long *`; "each extraction can itself fail (field missing,
wrong type, or runtime error)", and a failure leaves "an error already pending
in the host runtime".  The managed object is only read. -/
def field_jtoc_long (P : Platform) (h : Host) (env : JNIEnv) (f : Field)
    (obj : jobject) : JNIEnv × Option Int :=
  let env1 : JNIEnv := { env with log := env.log ++ [Event.jtoc f obj] }
  if h.jtoc_ok f obj then
    (env1, some (wrapSigned P.longBits (env.heap obj f)))
  else
    ({ env1 with exc := some Throwable.FieldAccessError }, none)

/-- Modelled from the spec: `field_ctoj_long` is defined in `jtux_util.c`,
which is not among the sources.  It writes the native value `v` into field `f`
of `obj` ("mapping is exact, field-by-field"); the write "is again a fallible
operation", and a failure leaves the object as it was and an error pending.
The value is stored as it is handed over: the type of the value parameter is
declared in `jtux_util.h`, which is not among the sources, so no conversion at
that parameter is modelled.  The Boolean is the C return value. -/
def field_ctoj_long (h : Host) (env : JNIEnv) (f : Field) (obj : jobject)
    (v : Int) : JNIEnv × Bool :=
  let env1 : JNIEnv := { env with log := env.log ++ [Event.ctoj f obj v] }
  if h.ctoj_ok f obj then
    ({ env1 with
        heap := fun o g => if o = obj ∧ g = f then v else env.heap o g }, true)
  else
    ({ env1 with exc := some Throwable.FieldAccessError }, false)

/-- Modelled from the spec: `JTHROW_neg1` is defined in `JNI_macros.h`, which
is not among the sources.  `JTHROW_neg1(x)` raises `SystemCallError` exactly
when `x` is the failure sentinel -1. -/
def JTHROW_neg1 (env : JNIEnv) (x : Int) : JNIEnv :=
  if x = -1 then
    { env with
        exc := some Throwable.SystemCallError
        log := env.log ++ [Event.throwSystemCallError] }
  else env

/-- The call `alarm(secs)` of the operating system, logged. -/
def sys_alarm (h : Host) (env : JNIEnv) (secs : Nat) : JNIEnv × Nat :=
  ({ env with log := env.log ++ [Event.sys_alarm secs] }, h.alarm secs)

/-- The call `sleep(secs)` of the operating system, logged. -/
def sys_sleep (h : Host) (env : JNIEnv) (secs : Nat) : JNIEnv × Nat :=
  ({ env with log := env.log ++ [Event.sys_sleep secs] }, h.sleep secs)

/-- The call `usleep(usecs)` of the operating system, logged. -/
def sys_usleep (h : Host) (env : JNIEnv) (usecs : Nat) : JNIEnv × Int :=
  ({ env with log := env.log ++ [Event.sys_usleep usecs] }, h.usleep usecs)

/-- The call `nanosleep(&req, rem)` of the operating system, logged. -/
def sys_nanosleep (h : Host) (env : JNIEnv) (req : timespec) (remBuf : Bool) :
    JNIEnv × Int × timespec :=
  let out := h.nanosleep req remBuf
  ({ env with log := env.log ++ [Event.sys_nanosleep req remBuf] }, out.1, out.2)

/-! ## The bridge -/

/-- Bridge function `Java_jtux_UClock_alarm`: `return alarm(secs);`.  The `jint` argument is
converted to the `unsigned` parameter and the `unsigned` result back to
`jint`. -/
def Java_jtux_UClock_alarm (h : Host) (env : JNIEnv) (secs : Int) :
    JNIEnv × Int :=
  let (env1, r) := sys_alarm h env (toUnsigned 32 secs)
  (env1, wrapSigned 32 r)

/-- The pointer `remain_c` after `struct timespec remain_buf, *remain_c = &remain_buf;`
and `if (remain == NULL) remain_c = NULL;`: `true` stands for `&remain_buf`,
`false` for `NULL`. -/
def remain_c_of (remain : jobject) : Bool :=
  if remain = NULL then false else true

/-- The record `nsecs_c` the bridge has built once both extractions have
succeeded: `tv_sec` is read into the `long sec` and then cast to `time_t`;
`tv_nsec` is read through a pointer to the `long` field `nsecs_c.tv_nsec`. -/
def nsecs_c_of (P : Platform) (env : JNIEnv) (nsecs : jobject) : timespec :=
  { tv_sec := wrapSigned P.timeBits (wrapSigned P.longBits (env.heap nsecs Field.tv_sec))
    tv_nsec := wrapSigned P.longBits (env.heap nsecs Field.tv_nsec) }

/-- Bridge function `Java_jtux_UClock_nanosleep`.  `remain_c` is the pointer handed to the
system call: `true` for `&remain_buf`, `false` for `NULL`.  The class looked up
at entry is only handed on to the field accessors. -/
def Java_jtux_UClock_nanosleep (P : Platform) (h : Host) (env : JNIEnv)
    (nsecs remain : jobject) : JNIEnv :=
  -- if (remain == NULL) remain_c = NULL;
  let remain_c : Bool := remain_c_of remain
  -- if (!field_jtoc_long(env, cls_timespec, "tv_sec", nsecs, &sec)) return;
  match field_jtoc_long P h env Field.tv_sec nsecs with
  | (env1, none) => env1
  | (env1, some sec) =>
    -- nsecs_c.tv_sec = (time_t)sec;
    let c_tv_sec := wrapSigned P.timeBits sec
    -- if (!field_jtoc_long(env, cls_timespec, "tv_nsec", nsecs, &nsecs_c.tv_nsec)) return;
    match field_jtoc_long P h env1 Field.tv_nsec nsecs with
    | (env2, none) => env2
    | (env2, some c_tv_nsec) =>
      -- r = nanosleep(&nsecs_c, remain_c);
      match sys_nanosleep h env2 ⟨c_tv_sec, c_tv_nsec⟩ remain_c with
      | (env3, r, remain_buf) =>
        -- if (r != 0 && remain_c != NULL) {
        if r ≠ 0 ∧ remain_c = true then
          -- if (!field_ctoj_long(env, cls_timespec, "tv_sec", remain, remain_c->tv_sec)) return;
          match field_ctoj_long h env3 Field.tv_sec remain remain_buf.tv_sec with
          | (env4, false) => env4
          | (env4, true) =>
            -- if (!field_ctoj_long(env, cls_timespec, "tv_nsec", remain, remain_c->tv_nsec)) return;
            match field_ctoj_long h env4 Field.tv_nsec remain remain_buf.tv_nsec with
            | (env5, false) => env5
            | (env5, true) =>
              -- if (r == -1) JTHROW_neg1(-1);
              if r = -1 then JTHROW_neg1 env5 (-1) else env5
        else
          -- if (r == -1) JTHROW_neg1(-1);
          if r = -1 then JTHROW_neg1 env3 (-1) else env3

/-- Bridge function `Java_jtux_UClock_sleep`: `return sleep(secs);`, with the same conversions
as `Java_jtux_UClock_alarm`. -/
def Java_jtux_UClock_sleep (h : Host) (env : JNIEnv) (secs : Int) :
    JNIEnv × Int :=
  let (env1, r) := sys_sleep h env (toUnsigned 32 secs)
  (env1, wrapSigned 32 r)

/-- Bridge function `Java_jtux_UClock_usleep`: `JTHROW_neg1(usleep(usecs))`.  The `jint`
argument is converted to the unsigned `useconds_t` parameter. -/
def Java_jtux_UClock_usleep (h : Host) (env : JNIEnv) (usecs : Int) : JNIEnv :=
  let (env1, r) := sys_usleep h env (toUnsigned 32 usecs)
  JTHROW_neg1 env1 r

/-! ## Concrete runs -/

/-- An LP64 platform. -/
def lp64 : Platform := { longBits := 64, timeBits := 64 }

/-- A heap in which object 1 holds 5 s and object 2 holds 0 s, 7 ns. -/
def heap0 : jobject → Field → Int := fun o f =>
  if o = 1 ∧ f = Field.tv_sec then 5
  else if o = 2 ∧ f = Field.tv_nsec then 7
  else 0

/-- A fresh runtime state over `heap0`. -/
def env0 : JNIEnv := { heap := heap0, exc := none, log := [] }

/-- A host on which every field access succeeds and every wait is interrupted
with 2 s, 500 ns left (sentinel -1); `alarm` and `sleep` answer 3. -/
def hostInterrupted : Host :=
  { jtoc_ok := fun _ _ => true
    ctoj_ok := fun _ _ => true
    alarm := fun _ => 3
    sleep := fun _ => 3
    usleep := fun _ => -1
    nanosleep := fun _ _ => (-1, ⟨2, 500⟩) }

/-- A host on which every read succeeds, every write fails, and the wait
fails with the sentinel -1. -/
def hostWriteFails : Host :=
  { hostInterrupted with ctoj_ok := fun _ _ => false }

/-- A host on which reading `tv_sec` succeeds and reading `tv_nsec` fails. -/
def hostNoNsec : Host :=
  { hostInterrupted with jtoc_ok := fun f _ => decide (f = Field.tv_sec) }

/-- A host on which every field access succeeds and the wait completes. -/
def hostCompleted : Host :=
  { hostInterrupted with nanosleep := fun _ _ => (0, ⟨0, 0⟩) }

/-- A host on which an interrupted wait reports the whole request as unslept. -/
def hostEcho : Host :=
  { hostInterrupted with nanosleep := fun req _ => (-1, req) }


/-! ## Helper lemmas -/

/-- A value that is representable in `bits` bits is unchanged by conversion. -/
theorem wrapSigned_of_inRange (bits : Nat) (x : Int) (hx : inRange bits x) :
    wrapSigned bits x = x := by
  unfold inRange at hx
  unfold wrapSigned
  generalize (2 : Int) ^ (bits - 1) = m at hx ⊢
  obtain ⟨h1, h2⟩ := hx
  rw [Int.emod_eq_of_lt (by omega) (by omega)]
  omega

/-- Converting a `jint` to `unsigned` and back gives the same `jint`: the
conversion keeps the 32-bit pattern. -/
theorem wrapSigned_toUnsigned_32 (x : Int) (hx : inRange 32 x) :
    wrapSigned 32 (toUnsigned 32 x) = x := by
  unfold inRange at hx
  unfold wrapSigned toUnsigned
  norm_num at hx ⊢
  omega

/-- Converting an `unsigned` result to `jint` keeps its low 32 bits. -/
theorem toUnsigned_wrapSigned_32 (u : Nat) :
    toUnsigned 32 (wrapSigned 32 u) = u % 2 ^ 32 := by
  unfold wrapSigned toUnsigned
  norm_num
  omega

/-- A non-negative `jint` is passed on as the same number. -/
theorem toUnsigned_32_of_nonneg (x : Int) (hx : inRange 32 x) (h0 : 0 ≤ x) :
    (toUnsigned 32 x : Int) = x := by
  unfold inRange at hx
  unfold toUnsigned
  norm_num at hx ⊢
  omega

/-- Frame property of `Java_jtux_UClock_nanosleep`: no field of an object other
than `remain` changes, and nothing changes when `remain` is null. -/
theorem nanosleep_heap_frame (P : Platform) (h : Host) (env : JNIEnv)
    (nsecs remain o : jobject) (f : Field) (ho : o ≠ remain ∨ remain = NULL) :
    (Java_jtux_UClock_nanosleep P h env nsecs remain).heap o f = env.heap o f := by
  unfold Java_jtux_UClock_nanosleep field_jtoc_long field_ctoj_long sys_nanosleep
    JTHROW_neg1 remain_c_of
  rcases ho with ho | ho
  · cases h.jtoc_ok Field.tv_sec nsecs <;> cases h.jtoc_ok Field.tv_nsec nsecs <;>
      cases h.ctoj_ok Field.tv_sec remain <;> cases h.ctoj_ok Field.tv_nsec remain <;>
      simp <;> split_ifs <;> simp [ho]
  · subst ho
    cases h.jtoc_ok Field.tv_sec nsecs <;> cases h.jtoc_ok Field.tv_nsec nsecs <;>
      simp
    split_ifs <;> simp

/-- Every field write `Java_jtux_UClock_nanosleep` attempts is a write into
the object `remain`. -/
theorem nanosleep_writes_target_remain (P : Platform) (h : Host) (env : JNIEnv)
    (nsecs remain : jobject) :
    ∀ e ∈ trace env (Java_jtux_UClock_nanosleep P h env nsecs remain),
      ∀ (f : Field) (o : jobject) (v : Int), e = Event.ctoj f o v → o = remain := by
  unfold Java_jtux_UClock_nanosleep field_jtoc_long field_ctoj_long sys_nanosleep
    JTHROW_neg1 remain_c_of
  cases h.jtoc_ok Field.tv_sec nsecs <;> cases h.jtoc_ok Field.tv_nsec nsecs <;>
    cases h.ctoj_ok Field.tv_sec remain <;> cases h.ctoj_ok Field.tv_nsec remain <;>
    simp [trace] <;> split_ifs <;> simp [trace]

/-! ## `alarm`, `sleep`, `usleep` -/

/-- C7: for every int32 `secs`, `alarm(secs)` and `sleep(secs)` each log exactly one
call of the corresponding system call, whose argument has the 32-bit pattern of
`secs` (and is `secs` itself when `secs` is not negative); they return the value
the system call returned, converted to int32 (same low 32 bits); and they leave
the pending exception and the heap as they were, so nothing is raised. -/
theorem alarm_sleep_pass_through (h : Host) (env : JNIEnv) (secs : Int)
    (hsecs : inRange 32 secs) :
    (trace env (Java_jtux_UClock_alarm h env secs).1
        = [Event.sys_alarm (toUnsigned 32 secs)]
      ∧ (Java_jtux_UClock_alarm h env secs).2
        = wrapSigned 32 (h.alarm (toUnsigned 32 secs))
      ∧ toUnsigned 32 (Java_jtux_UClock_alarm h env secs).2
        = h.alarm (toUnsigned 32 secs) % 2 ^ 32
      ∧ (Java_jtux_UClock_alarm h env secs).1.exc = env.exc
      ∧ (Java_jtux_UClock_alarm h env secs).1.heap = env.heap)
    ∧ (trace env (Java_jtux_UClock_sleep h env secs).1
        = [Event.sys_sleep (toUnsigned 32 secs)]
      ∧ (Java_jtux_UClock_sleep h env secs).2
        = wrapSigned 32 (h.sleep (toUnsigned 32 secs))
      ∧ toUnsigned 32 (Java_jtux_UClock_sleep h env secs).2
        = h.sleep (toUnsigned 32 secs) % 2 ^ 32
      ∧ (Java_jtux_UClock_sleep h env secs).1.exc = env.exc
      ∧ (Java_jtux_UClock_sleep h env secs).1.heap = env.heap)
    ∧ wrapSigned 32 (toUnsigned 32 secs) = secs
    ∧ (0 ≤ secs → (toUnsigned 32 secs : Int) = secs) := by
  refine ⟨⟨?_, ?_, ?_, ?_, ?_⟩, ⟨?_, ?_, ?_, ?_, ?_⟩, ?_, ?_⟩
  · simp [Java_jtux_UClock_alarm, sys_alarm, trace]
  · simp [Java_jtux_UClock_alarm, sys_alarm]
  · simp only [Java_jtux_UClock_alarm, sys_alarm]
    exact toUnsigned_wrapSigned_32 _
  · simp [Java_jtux_UClock_alarm, sys_alarm]
  · simp [Java_jtux_UClock_alarm, sys_alarm]
  · simp [Java_jtux_UClock_sleep, sys_sleep, trace]
  · simp [Java_jtux_UClock_sleep, sys_sleep]
  · simp only [Java_jtux_UClock_sleep, sys_sleep]
    exact toUnsigned_wrapSigned_32 _
  · simp [Java_jtux_UClock_sleep, sys_sleep]
  · simp [Java_jtux_UClock_sleep, sys_sleep]
  · exact wrapSigned_toUnsigned_32 secs hsecs
  · exact toUnsigned_32_of_nonneg secs hsecs

/-- Witness for C7: `alarm(-1)` and `sleep(-1)` hand the pattern 0xFFFFFFFF to the
system call and return its answer 3. -/
theorem alarm_sleep_pass_through_witness :
    (trace env0 (Java_jtux_UClock_alarm hostInterrupted env0 (-1)).1
        = [Event.sys_alarm 4294967295]
      ∧ (Java_jtux_UClock_alarm hostInterrupted env0 (-1)).2 = 3)
    ∧ (trace env0 (Java_jtux_UClock_sleep hostInterrupted env0 (-1)).1
        = [Event.sys_sleep 4294967295]
      ∧ (Java_jtux_UClock_sleep hostInterrupted env0 (-1)).2 = 3) :=
  ⟨⟨(alarm_sleep_pass_through hostInterrupted env0 (-1) (by decide)).1.1,
      (alarm_sleep_pass_through hostInterrupted env0 (-1) (by decide)).1.2.1⟩,
    ⟨(alarm_sleep_pass_through hostInterrupted env0 (-1) (by decide)).2.1.1,
      (alarm_sleep_pass_through hostInterrupted env0 (-1) (by decide)).2.1.2.1⟩⟩

/-- C3: for every int32 `usecs`, `usleep(usecs)` logs exactly one call of the system
call, whose argument has the 32-bit pattern of `usecs`; `SystemCallError` is
raised if and only if that call returns -1, and for every other return value
the bridge returns with the pending exception as it was.  The heap is never
touched. -/
theorem usleep_raises_iff_sentinel (h : Host) (env : JNIEnv) (usecs : Int)
    (husecs : inRange 32 usecs) :
    (h.usleep (toUnsigned 32 usecs) = -1 →
        trace env (Java_jtux_UClock_usleep h env usecs)
          = [Event.sys_usleep (toUnsigned 32 usecs), Event.throwSystemCallError]
        ∧ (Java_jtux_UClock_usleep h env usecs).exc
          = some Throwable.SystemCallError)
    ∧ (h.usleep (toUnsigned 32 usecs) ≠ -1 →
        trace env (Java_jtux_UClock_usleep h env usecs)
          = [Event.sys_usleep (toUnsigned 32 usecs)]
        ∧ (Java_jtux_UClock_usleep h env usecs).exc = env.exc)
    ∧ (Event.throwSystemCallError ∈ trace env (Java_jtux_UClock_usleep h env usecs)
        ↔ h.usleep (toUnsigned 32 usecs) = -1)
    ∧ (Java_jtux_UClock_usleep h env usecs).heap = env.heap
    ∧ wrapSigned 32 (toUnsigned 32 usecs) = usecs
    ∧ (0 ≤ usecs → (toUnsigned 32 usecs : Int) = usecs) := by
  refine ⟨?_, ?_, ?_, ?_, wrapSigned_toUnsigned_32 usecs husecs, ?_⟩
  · intro hr
    simp [Java_jtux_UClock_usleep, sys_usleep, JTHROW_neg1, hr, trace]
  · intro hr
    simp [Java_jtux_UClock_usleep, sys_usleep, JTHROW_neg1, hr, trace]
  · by_cases hr : h.usleep (toUnsigned 32 usecs) = -1
    · simp [Java_jtux_UClock_usleep, sys_usleep, JTHROW_neg1, hr, trace]
    · simp [Java_jtux_UClock_usleep, sys_usleep, JTHROW_neg1, hr, trace]
  · by_cases hr : h.usleep (toUnsigned 32 usecs) = -1
    · simp [Java_jtux_UClock_usleep, sys_usleep, JTHROW_neg1, hr]
    · simp [Java_jtux_UClock_usleep, sys_usleep, JTHROW_neg1, hr]
  · exact toUnsigned_32_of_nonneg usecs husecs

/-- Witness for C3: `usleep(1000)` on a host whose call fails raises
`SystemCallError`. -/
theorem usleep_raises_iff_sentinel_witness :
    (Java_jtux_UClock_usleep hostInterrupted env0 1000).exc
      = some Throwable.SystemCallError :=
  ((usleep_raises_iff_sentinel hostInterrupted env0 1000 (by decide)).1 (by decide)).2

/-! ## `nanosleep` -/

/-- C2: if extracting `tv_sec` from `duration` fails, or it succeeds and extracting
`tv_nsec` fails, the bridge returns right after the failed access: the log of
the call ends with that access, contains no call of the underlying wait, no
field write and no throw; the heap is unchanged; and what is pending is the
error of the failed field access, not a `SystemCallError`. -/
theorem nanosleep_extraction_failure (P : Platform) (h : Host) (env : JNIEnv)
    (nsecs remain : jobject)
    (hfail : h.jtoc_ok Field.tv_sec nsecs = false
      ∨ (h.jtoc_ok Field.tv_sec nsecs = true
          ∧ h.jtoc_ok Field.tv_nsec nsecs = false)) :
    (h.jtoc_ok Field.tv_sec nsecs = false →
        trace env (Java_jtux_UClock_nanosleep P h env nsecs remain)
          = [Event.jtoc Field.tv_sec nsecs])
    ∧ (h.jtoc_ok Field.tv_sec nsecs = true →
        trace env (Java_jtux_UClock_nanosleep P h env nsecs remain)
          = [Event.jtoc Field.tv_sec nsecs, Event.jtoc Field.tv_nsec nsecs])
    ∧ (∀ e ∈ trace env (Java_jtux_UClock_nanosleep P h env nsecs remain),
        e.isNanosleep = false ∧ e.isWrite = false
          ∧ e ≠ Event.throwSystemCallError)
    ∧ (Java_jtux_UClock_nanosleep P h env nsecs remain).heap = env.heap
    ∧ (Java_jtux_UClock_nanosleep P h env nsecs remain).exc
        = some Throwable.FieldAccessError := by
  rcases hfail with h1 | ⟨h1, h2⟩
  · simp [Java_jtux_UClock_nanosleep, field_jtoc_long, h1, trace, Event.isNanosleep,
      Event.isWrite]
  · simp [Java_jtux_UClock_nanosleep, field_jtoc_long, h1, h2, trace, Event.isNanosleep,
      Event.isWrite]

/-- Witness for C2: reading `tv_nsec` fails, and the bridge stops after the two
reads. -/
theorem nanosleep_extraction_failure_witness :
    trace env0 (Java_jtux_UClock_nanosleep lp64 hostNoNsec env0 1 2)
      = [Event.jtoc Field.tv_sec 1, Event.jtoc Field.tv_nsec 1] :=
  (nanosleep_extraction_failure lp64 hostNoNsec env0 1 2
    (Or.inr ⟨by decide, by decide⟩)).2.1 (by decide)

/-- Counterexample to C1 as stated: both extractions succeed and the underlying
wait returns -1, but the write of `tv_sec` into the supplied `remaining` fails;
the bridge returns without raising `SystemCallError`. -/
theorem nanosleep_sentinel_without_raise :
    hostWriteFails.jtoc_ok Field.tv_sec 1 = true
    ∧ hostWriteFails.jtoc_ok Field.tv_nsec 1 = true
    ∧ (hostWriteFails.nanosleep (nsecs_c_of lp64 env0 1) (remain_c_of 2)).1 = -1
    ∧ (Java_jtux_UClock_nanosleep lp64 hostWriteFails env0 1 2).exc
        ≠ some Throwable.SystemCallError
    ∧ Event.throwSystemCallError
        ∉ trace env0 (Java_jtux_UClock_nanosleep lp64 hostWriteFails env0 1 2) := by
  decide

/-- C1, amended: when both extractions succeed, the underlying wait returns -1, and
either `remaining` is absent or both field writes succeed, then
`SystemCallError` is pending on return, and the throw is the last event of the
call: it follows the system call and, when `remaining` was supplied, both
writes of the remainder. -/
theorem nanosleep_sentinel_raises_after_write_back (P : Platform) (h : Host)
    (env : JNIEnv) (nsecs remain : jobject)
    (hsec : h.jtoc_ok Field.tv_sec nsecs = true)
    (hnsec : h.jtoc_ok Field.tv_nsec nsecs = true)
    (hr : (h.nanosleep (nsecs_c_of P env nsecs) (remain_c_of remain)).1 = -1)
    (hw : remain = NULL
      ∨ (h.ctoj_ok Field.tv_sec remain = true ∧ h.ctoj_ok Field.tv_nsec remain = true)) :
    (Java_jtux_UClock_nanosleep P h env nsecs remain).exc
        = some Throwable.SystemCallError
    ∧ (remain = NULL →
        trace env (Java_jtux_UClock_nanosleep P h env nsecs remain)
          = [Event.jtoc Field.tv_sec nsecs, Event.jtoc Field.tv_nsec nsecs,
             Event.sys_nanosleep (nsecs_c_of P env nsecs) false,
             Event.throwSystemCallError])
    ∧ (remain ≠ NULL →
        trace env (Java_jtux_UClock_nanosleep P h env nsecs remain)
          = [Event.jtoc Field.tv_sec nsecs, Event.jtoc Field.tv_nsec nsecs,
             Event.sys_nanosleep (nsecs_c_of P env nsecs) true,
             Event.ctoj Field.tv_sec remain
               (h.nanosleep (nsecs_c_of P env nsecs) true).2.tv_sec,
             Event.ctoj Field.tv_nsec remain
               (h.nanosleep (nsecs_c_of P env nsecs) true).2.tv_nsec,
             Event.throwSystemCallError]) := by
  by_cases hnull : remain = NULL
  · simp only [remain_c_of, nsecs_c_of, hnull, if_true] at hr
    simp [Java_jtux_UClock_nanosleep, field_jtoc_long, sys_nanosleep, JTHROW_neg1,
      remain_c_of, nsecs_c_of, hsec, hnsec, hr, hnull, trace]
  · rcases hw with hw | ⟨hw1, hw2⟩
    · exact absurd hw hnull
    · simp only [remain_c_of, nsecs_c_of, hnull, if_false] at hr
      simp [Java_jtux_UClock_nanosleep, field_jtoc_long, field_ctoj_long, sys_nanosleep,
        JTHROW_neg1, remain_c_of, nsecs_c_of, hsec, hnsec, hr, hnull, hw1, hw2, trace]

/-- Witness for the amended C1: an interrupted wait with a supplied `remaining`. -/
theorem nanosleep_sentinel_raises_after_write_back_witness :
    trace env0 (Java_jtux_UClock_nanosleep lp64 hostInterrupted env0 1 2)
      = [Event.jtoc Field.tv_sec 1, Event.jtoc Field.tv_nsec 1,
         Event.sys_nanosleep ⟨5, 0⟩ true,
         Event.ctoj Field.tv_sec 2 2, Event.ctoj Field.tv_nsec 2 500,
         Event.throwSystemCallError] :=
  (nanosleep_sentinel_raises_after_write_back lp64 hostInterrupted env0 1 2
    (by decide) (by decide) (by decide) (Or.inr ⟨by decide, by decide⟩)).2.2 (by decide)

/-- C4: when both extractions succeed, the underlying wait returns a non-zero
value, `remaining` was supplied and both field writes succeed, then after the
call `remaining.tv_sec` and `remaining.tv_nsec` are exactly the seconds and
nanoseconds of the native remainder record; the two writes the bridge issues
carry exactly those values, and it issues no other write. -/
theorem nanosleep_write_back_exact (P : Platform) (h : Host) (env : JNIEnv)
    (nsecs remain : jobject)
    (hsec : h.jtoc_ok Field.tv_sec nsecs = true)
    (hnsec : h.jtoc_ok Field.tv_nsec nsecs = true)
    (hr : (h.nanosleep (nsecs_c_of P env nsecs) (remain_c_of remain)).1 ≠ 0)
    (hremain : remain ≠ NULL)
    (hw1 : h.ctoj_ok Field.tv_sec remain = true)
    (hw2 : h.ctoj_ok Field.tv_nsec remain = true) :
    (Java_jtux_UClock_nanosleep P h env nsecs remain).heap remain Field.tv_sec
      = (h.nanosleep (nsecs_c_of P env nsecs) true).2.tv_sec
    ∧ (Java_jtux_UClock_nanosleep P h env nsecs remain).heap remain Field.tv_nsec
      = (h.nanosleep (nsecs_c_of P env nsecs) true).2.tv_nsec
    ∧ (trace env (Java_jtux_UClock_nanosleep P h env nsecs remain)).filter Event.isWrite
      = [Event.ctoj Field.tv_sec remain
           (h.nanosleep (nsecs_c_of P env nsecs) true).2.tv_sec,
         Event.ctoj Field.tv_nsec remain
           (h.nanosleep (nsecs_c_of P env nsecs) true).2.tv_nsec] := by
  simp only [remain_c_of, nsecs_c_of, hremain, if_false] at hr
  by_cases hneg : (h.nanosleep
      { tv_sec := wrapSigned P.timeBits (wrapSigned P.longBits (env.heap nsecs Field.tv_sec))
        tv_nsec := wrapSigned P.longBits (env.heap nsecs Field.tv_nsec) } true).1 = -1
  · simp [Java_jtux_UClock_nanosleep, field_jtoc_long, field_ctoj_long, sys_nanosleep,
      JTHROW_neg1, remain_c_of, nsecs_c_of, hsec, hnsec, hr, hremain, hw1, hw2, hneg,
      trace, Event.isWrite, List.filter]
  · simp [Java_jtux_UClock_nanosleep, field_jtoc_long, field_ctoj_long, sys_nanosleep,
      JTHROW_neg1, remain_c_of, nsecs_c_of, hsec, hnsec, hr, hremain, hw1, hw2, hneg,
      trace, Event.isWrite, List.filter]

/-- Witness for C4: an interrupted wait leaves 2 s, 500 ns in `remaining`. -/
theorem nanosleep_write_back_exact_witness :
    (Java_jtux_UClock_nanosleep lp64 hostInterrupted env0 1 2).heap 2 Field.tv_sec = 2
    ∧ (Java_jtux_UClock_nanosleep lp64 hostInterrupted env0 1 2).heap 2 Field.tv_nsec = 500 :=
  ⟨(nanosleep_write_back_exact lp64 hostInterrupted env0 1 2 (by decide) (by decide)
      (by decide) (by decide) (by decide) (by decide)).1,
    (nanosleep_write_back_exact lp64 hostInterrupted env0 1 2 (by decide) (by decide)
      (by decide) (by decide) (by decide) (by decide)).2.1⟩

/-- Counterexample to C5 as stated: the caller passes the same object as `duration`
and as `remaining`; the wait is interrupted and the write-back overwrites
`duration.tv_sec` (5 before the call, 2 after). -/
theorem nanosleep_duration_mutated_when_aliased :
    env0.heap 1 Field.tv_sec = 5
    ∧ (Java_jtux_UClock_nanosleep lp64 hostInterrupted env0 1 1).heap 1 Field.tv_sec = 2 := by
  decide

/-- C5, amended: when `remaining` is absent or is a different object from
`duration`, then for every outcome of the field accessors and of the underlying
wait the fields `tv_sec` and `tv_nsec` of `duration` are the same after the
call as before it; every write the bridge attempts goes to `remaining`. -/
theorem nanosleep_duration_unchanged (P : Platform) (h : Host) (env : JNIEnv)
    (nsecs remain : jobject) (hdistinct : nsecs ≠ remain ∨ remain = NULL) :
    (Java_jtux_UClock_nanosleep P h env nsecs remain).heap nsecs Field.tv_sec
      = env.heap nsecs Field.tv_sec
    ∧ (Java_jtux_UClock_nanosleep P h env nsecs remain).heap nsecs Field.tv_nsec
      = env.heap nsecs Field.tv_nsec
    ∧ (∀ e ∈ trace env (Java_jtux_UClock_nanosleep P h env nsecs remain),
        ∀ (f : Field) (o : jobject) (v : Int), e = Event.ctoj f o v → o = remain) :=
  ⟨nanosleep_heap_frame P h env nsecs remain nsecs Field.tv_sec hdistinct,
    nanosleep_heap_frame P h env nsecs remain nsecs Field.tv_nsec hdistinct,
    nanosleep_writes_target_remain P h env nsecs remain⟩

/-- Witness for the amended C5: with distinct objects an interrupted wait leaves
`duration.tv_sec` at 5. -/
theorem nanosleep_duration_unchanged_witness :
    (Java_jtux_UClock_nanosleep lp64 hostInterrupted env0 1 2).heap 1 Field.tv_sec = 5 :=
  (nanosleep_duration_unchanged lp64 hostInterrupted env0 1 2 (Or.inl (by decide))).1

/-- C6: when the extraction of `duration` succeeds and `remaining` is null, the
underlying wait is called exactly once, with the null pointer as remainder
buffer; no field write is attempted and the heap is unchanged, whatever the
call returns.  When `remaining` is not null, the underlying wait is called
exactly once, with a native remainder buffer. -/
theorem nanosleep_null_remaining (P : Platform) (h : Host) (env : JNIEnv)
    (nsecs remain : jobject)
    (hsec : h.jtoc_ok Field.tv_sec nsecs = true)
    (hnsec : h.jtoc_ok Field.tv_nsec nsecs = true) :
    (remain = NULL →
        (trace env (Java_jtux_UClock_nanosleep P h env nsecs remain)).filter
            Event.isNanosleep
          = [Event.sys_nanosleep (nsecs_c_of P env nsecs) false]
        ∧ (∀ e ∈ trace env (Java_jtux_UClock_nanosleep P h env nsecs remain),
            e.isWrite = false)
        ∧ (Java_jtux_UClock_nanosleep P h env nsecs remain).heap = env.heap)
    ∧ (remain ≠ NULL →
        (trace env (Java_jtux_UClock_nanosleep P h env nsecs remain)).filter
            Event.isNanosleep
          = [Event.sys_nanosleep (nsecs_c_of P env nsecs) true]) := by
  constructor
  · intro hnull
    by_cases hneg : (h.nanosleep
        { tv_sec := wrapSigned P.timeBits (wrapSigned P.longBits (env.heap nsecs Field.tv_sec))
          tv_nsec := wrapSigned P.longBits (env.heap nsecs Field.tv_nsec) } false).1 = -1
    · simp [Java_jtux_UClock_nanosleep, field_jtoc_long, sys_nanosleep, JTHROW_neg1,
        remain_c_of, nsecs_c_of, hsec, hnsec, hnull, hneg, trace, Event.isNanosleep,
        Event.isWrite, List.filter]
    · simp [Java_jtux_UClock_nanosleep, field_jtoc_long, sys_nanosleep, JTHROW_neg1,
        remain_c_of, nsecs_c_of, hsec, hnsec, hnull, hneg, trace, Event.isNanosleep,
        Event.isWrite, List.filter]
  · intro hremain
    unfold Java_jtux_UClock_nanosleep field_jtoc_long field_ctoj_long sys_nanosleep
      JTHROW_neg1
    cases h.ctoj_ok Field.tv_sec remain <;> cases h.ctoj_ok Field.tv_nsec remain <;>
      simp [remain_c_of, nsecs_c_of, hsec, hnsec, hremain] <;>
      split_ifs <;>
      simp [trace, Event.isNanosleep, List.filter]

/-- Witness for C6: a null `remaining` on a host whose wait is interrupted. -/
theorem nanosleep_null_remaining_witness :
    (trace env0 (Java_jtux_UClock_nanosleep lp64 hostInterrupted env0 1 NULL)).filter
        Event.isNanosleep
      = [Event.sys_nanosleep ⟨5, 0⟩ false] :=
  ((nanosleep_null_remaining lp64 hostInterrupted env0 1 NULL (by decide) (by decide)).1
    rfl).1

/-- C8: round trip.  If `duration.tv_sec` is representable in `long` and in `time_t`
and `duration.tv_nsec` is representable in `long` (the type of `tv_nsec`), the
native record the bridge hands to the system call has exactly those two
values; and when that record comes back as the remainder of an interrupted
wait and is written back, `remaining` ends with exactly the `tv_sec` and
`tv_nsec` that `duration` had. -/
theorem nanosleep_round_trip (P : Platform) (h : Host) (env : JNIEnv)
    (nsecs remain : jobject)
    (hsec_long : inRange P.longBits (env.heap nsecs Field.tv_sec))
    (hsec_time : inRange P.timeBits (env.heap nsecs Field.tv_sec))
    (hnsec_long : inRange P.longBits (env.heap nsecs Field.tv_nsec))
    (hsec : h.jtoc_ok Field.tv_sec nsecs = true)
    (hnsec : h.jtoc_ok Field.tv_nsec nsecs = true)
    (hremain : remain ≠ NULL)
    (hw1 : h.ctoj_ok Field.tv_sec remain = true)
    (hw2 : h.ctoj_ok Field.tv_nsec remain = true)
    (hr : (h.nanosleep (nsecs_c_of P env nsecs) true).1 ≠ 0)
    (hecho : (h.nanosleep (nsecs_c_of P env nsecs) true).2 = nsecs_c_of P env nsecs) :
    nsecs_c_of P env nsecs
      = { tv_sec := env.heap nsecs Field.tv_sec, tv_nsec := env.heap nsecs Field.tv_nsec }
    ∧ Event.sys_nanosleep
          { tv_sec := env.heap nsecs Field.tv_sec, tv_nsec := env.heap nsecs Field.tv_nsec }
          true
        ∈ trace env (Java_jtux_UClock_nanosleep P h env nsecs remain)
    ∧ (Java_jtux_UClock_nanosleep P h env nsecs remain).heap remain Field.tv_sec
        = env.heap nsecs Field.tv_sec
    ∧ (Java_jtux_UClock_nanosleep P h env nsecs remain).heap remain Field.tv_nsec
        = env.heap nsecs Field.tv_nsec := by
  have hreq : nsecs_c_of P env nsecs
      = { tv_sec := env.heap nsecs Field.tv_sec
          tv_nsec := env.heap nsecs Field.tv_nsec } := by
    simp only [nsecs_c_of]
    rw [wrapSigned_of_inRange _ _ hsec_long, wrapSigned_of_inRange _ _ hsec_time,
      wrapSigned_of_inRange _ _ hnsec_long]
  have hreq2 : (⟨wrapSigned P.timeBits (wrapSigned P.longBits (env.heap nsecs Field.tv_sec)),
      wrapSigned P.longBits (env.heap nsecs Field.tv_nsec)⟩ : timespec)
      = { tv_sec := env.heap nsecs Field.tv_sec
          tv_nsec := env.heap nsecs Field.tv_nsec } := hreq
  rw [hreq] at hr hecho
  refine ⟨hreq, ?_, ?_, ?_⟩
  all_goals
    by_cases hneg : (h.nanosleep
        { tv_sec := env.heap nsecs Field.tv_sec
          tv_nsec := env.heap nsecs Field.tv_nsec } true).1 = -1
    · simp [Java_jtux_UClock_nanosleep, field_jtoc_long, field_ctoj_long, sys_nanosleep,
        JTHROW_neg1, remain_c_of, hreq2, hsec, hnsec, hr, hremain, hw1, hw2, hneg, hecho,
        trace]
    · simp [Java_jtux_UClock_nanosleep, field_jtoc_long, field_ctoj_long, sys_nanosleep,
        JTHROW_neg1, remain_c_of, hreq2, hsec, hnsec, hr, hremain, hw1, hw2, hneg, hecho,
        trace]

/-- Witness for C8: 5 s, 0 ns goes through the native record and back. -/
theorem nanosleep_round_trip_witness :
    (Java_jtux_UClock_nanosleep lp64 hostEcho env0 1 2).heap 2 Field.tv_sec = 5
    ∧ (Java_jtux_UClock_nanosleep lp64 hostEcho env0 1 2).heap 2 Field.tv_nsec = 0 :=
  (nanosleep_round_trip lp64 hostEcho env0 1 2 (by decide) (by decide) (by decide)
    (by decide) (by decide) (by decide) (by decide) (by decide) (by decide)
    (by decide)).2.2

/-- C9: when both extractions succeed, a write into `remaining` is attempted if and
only if the underlying wait returned a non-zero value and `remaining` was
supplied.  When the wait returns 0 the call consists of the two reads and the
system call only: nothing is raised and the heap is unchanged. -/
theorem nanosleep_write_attempted_iff (P : Platform) (h : Host) (env : JNIEnv)
    (nsecs remain : jobject)
    (hsec : h.jtoc_ok Field.tv_sec nsecs = true)
    (hnsec : h.jtoc_ok Field.tv_nsec nsecs = true) :
    ((∃ e ∈ trace env (Java_jtux_UClock_nanosleep P h env nsecs remain),
          e.isWrite = true)
        ↔ ((h.nanosleep (nsecs_c_of P env nsecs) (remain_c_of remain)).1 ≠ 0
            ∧ remain ≠ NULL))
    ∧ ((h.nanosleep (nsecs_c_of P env nsecs) (remain_c_of remain)).1 = 0 →
        trace env (Java_jtux_UClock_nanosleep P h env nsecs remain)
          = [Event.jtoc Field.tv_sec nsecs, Event.jtoc Field.tv_nsec nsecs,
             Event.sys_nanosleep (nsecs_c_of P env nsecs) (remain_c_of remain)]
        ∧ (Java_jtux_UClock_nanosleep P h env nsecs remain).exc = env.exc
        ∧ (Java_jtux_UClock_nanosleep P h env nsecs remain).heap = env.heap) := by
  constructor
  · unfold Java_jtux_UClock_nanosleep field_jtoc_long field_ctoj_long sys_nanosleep
      JTHROW_neg1
    by_cases hnull : remain = NULL
    · simp only [remain_c_of, nsecs_c_of, hnull, hsec, hnsec]
      simp
      split_ifs <;> simp [trace, Event.isWrite]
    · cases h.ctoj_ok Field.tv_sec remain <;> cases h.ctoj_ok Field.tv_nsec remain <;>
        simp [remain_c_of, nsecs_c_of, hsec, hnsec, hnull] <;>
        split_ifs <;>
        simp_all [trace, Event.isWrite]
  · intro hr
    simp only [nsecs_c_of] at hr
    simp [Java_jtux_UClock_nanosleep, field_jtoc_long, sys_nanosleep, JTHROW_neg1,
      nsecs_c_of, hsec, hnsec, hr, trace]

/-- Witness for C9: a completed wait with a null `remaining`. -/
theorem nanosleep_write_attempted_iff_witness :
    trace env0 (Java_jtux_UClock_nanosleep lp64 hostCompleted env0 2 NULL)
        = [Event.jtoc Field.tv_sec 2, Event.jtoc Field.tv_nsec 2,
           Event.sys_nanosleep ⟨0, 7⟩ false]
      ∧ (Java_jtux_UClock_nanosleep lp64 hostCompleted env0 2 NULL).exc = none :=
  ⟨((nanosleep_write_attempted_iff lp64 hostCompleted env0 2 NULL (by decide)
      (by decide)).2 (by decide)).1,
    ((nanosleep_write_attempted_iff lp64 hostCompleted env0 2 NULL (by decide)
      (by decide)).2 (by decide)).2.1⟩

/-- C10: once the write-back is reached (extractions succeed, the wait returns a
non-zero value, `remaining` supplied): if writing `tv_sec` fails the call ends
with that write, `tv_nsec` is not written, the heap is unchanged and only the
field-access error is pending; if writing `tv_sec` succeeds and writing
`tv_nsec` fails the call ends with the second write and only the field-access
error is pending.  No `SystemCallError` is raised in either case, also when the
wait returned -1. -/
theorem nanosleep_write_failure_aborts (P : Platform) (h : Host) (env : JNIEnv)
    (nsecs remain : jobject)
    (hsec : h.jtoc_ok Field.tv_sec nsecs = true)
    (hnsec : h.jtoc_ok Field.tv_nsec nsecs = true)
    (hr : (h.nanosleep (nsecs_c_of P env nsecs) (remain_c_of remain)).1 ≠ 0)
    (hremain : remain ≠ NULL) :
    (h.ctoj_ok Field.tv_sec remain = false →
        trace env (Java_jtux_UClock_nanosleep P h env nsecs remain)
          = [Event.jtoc Field.tv_sec nsecs, Event.jtoc Field.tv_nsec nsecs,
             Event.sys_nanosleep (nsecs_c_of P env nsecs) true,
             Event.ctoj Field.tv_sec remain
               (h.nanosleep (nsecs_c_of P env nsecs) true).2.tv_sec]
        ∧ (Java_jtux_UClock_nanosleep P h env nsecs remain).exc
            = some Throwable.FieldAccessError
        ∧ (Java_jtux_UClock_nanosleep P h env nsecs remain).heap = env.heap)
    ∧ (h.ctoj_ok Field.tv_sec remain = true →
        h.ctoj_ok Field.tv_nsec remain = false →
        trace env (Java_jtux_UClock_nanosleep P h env nsecs remain)
          = [Event.jtoc Field.tv_sec nsecs, Event.jtoc Field.tv_nsec nsecs,
             Event.sys_nanosleep (nsecs_c_of P env nsecs) true,
             Event.ctoj Field.tv_sec remain
               (h.nanosleep (nsecs_c_of P env nsecs) true).2.tv_sec,
             Event.ctoj Field.tv_nsec remain
               (h.nanosleep (nsecs_c_of P env nsecs) true).2.tv_nsec]
        ∧ (Java_jtux_UClock_nanosleep P h env nsecs remain).exc
            = some Throwable.FieldAccessError
        ∧ (Java_jtux_UClock_nanosleep P h env nsecs remain).heap remain Field.tv_nsec
            = env.heap remain Field.tv_nsec) := by
  simp only [remain_c_of, nsecs_c_of, hremain, if_false] at hr
  constructor
  · intro hw1
    simp [Java_jtux_UClock_nanosleep, field_jtoc_long, field_ctoj_long, sys_nanosleep,
      remain_c_of, nsecs_c_of, hsec, hnsec, hr, hremain, hw1, trace]
  · intro hw1 hw2
    simp [Java_jtux_UClock_nanosleep, field_jtoc_long, field_ctoj_long, sys_nanosleep,
      remain_c_of, nsecs_c_of, hsec, hnsec, hr, hremain, hw1, hw2, trace]

/-- Witness for C10: the wait returns -1, the write of `tv_sec` fails, and the
bridge stops there. -/
theorem nanosleep_write_failure_aborts_witness :
    trace env0 (Java_jtux_UClock_nanosleep lp64 hostWriteFails env0 1 2)
        = [Event.jtoc Field.tv_sec 1, Event.jtoc Field.tv_nsec 1,
           Event.sys_nanosleep ⟨5, 0⟩ true, Event.ctoj Field.tv_sec 2 2]
      ∧ (Java_jtux_UClock_nanosleep lp64 hostWriteFails env0 1 2).exc
        = some Throwable.FieldAccessError :=
  ⟨((nanosleep_write_failure_aborts lp64 hostWriteFails env0 1 2 (by decide) (by decide)
      (by decide) (by decide)).1 (by decide)).1,
    ((nanosleep_write_failure_aborts lp64 hostWriteFails env0 1 2 (by decide) (by decide)
      (by decide) (by decide)).1 (by decide)).2.1⟩

end Jtux
